import Mathlib

/-!
# Verification of the Seajets data-extractor core

Shallow embedding of the generator/exporter pipeline of the repository:
date-range expansion (`SeajetsScraper.date_range`), deterministic synthetic
itinerary/seat generation (`SeajetsScraper.generate_sample_data`,
`SeajetsScraper.generate_sample_seat_data`), tabular aggregation
(`SeajetsScraper.scrape_seajets`) and export (`export_csv` in `app.py`).

Modelling conventions:
* Python `datetime` values produced by `strptime("%d/%m/%Y")` are dates at
  midnight; they are embedded as `Date` triples (day, month, year) in the
  proleptic Gregorian calendar, with `toOrd` the embedding of
  `datetime.toordinal()` (01/01/0001 ↦ 1).  Comparison of such `datetime`
  values is chronological, i.e. comparison of ordinals.
* `datetime.now()` (generation time) is passed explicitly as a rational
  number `now` of days since the epoch of `toOrd`, so `date_obj >
  datetime.now()` becomes `now < toOrd d` and `(date_obj -
  datetime.now()).days` (flooring division of a timedelta into whole days)
  becomes `⌊toOrd d - now⌋`.  The source calls `datetime.now()` twice per
  record batch; both calls are represented by the same parameter.
* Python float arithmetic on the small decimal constants involved
  (0.1, 0.95, 1.2, 1.5, `x / 30`) is embedded as exact rational arithmetic.
* `int(x)` for `x ≥ 0` is truncation toward zero, embedded by `pyTrunc`.
* f-string interpolation of a number is decimal rendering, embedded by
  `natStr`; `strftime("%d/%m/%Y")` zero-pads day and month to two digits
  and renders the year unpadded, embedded by `formatDate`.
-/

namespace Seajets

/-- A calendar date as carried by a Python `datetime` produced from
`strptime("%d/%m/%Y")` (the time-of-day part is always midnight). -/
structure Date where
  day : Nat
  month : Nat
  year : Nat
deriving DecidableEq, Repr

/-- Gregorian leap-year rule used by Python `datetime`. -/
def isLeap (y : Nat) : Bool := (y % 4 == 0 && y % 100 != 0) || y % 400 == 0

/-- Number of days in month `m` of year `y` (months are 1-based). -/
def daysInMonth (y m : Nat) : Nat :=
  if m = 2 then (if isLeap y then 29 else 28)
  else if m = 4 ∨ m = 6 ∨ m = 9 ∨ m = 11 then 30
  else 31

/-- Number of days in year `y`. -/
def daysInYear (y : Nat) : Nat := if isLeap y then 366 else 365

/-- Number of days of year `y` that lie strictly before month `m`
(`daysBeforeMonth y 1 = 0`). -/
def daysBeforeMonth (y : Nat) : Nat → Nat
  | 0 => 0
  | m + 1 => daysBeforeMonth y m + if m = 0 then 0 else daysInMonth y m

/-- Number of days strictly before January 1 of year `y` in the proleptic
Gregorian calendar (the `_days_before_year` of CPython's `datetime`,
with the subtraction reassociated so that it never underflows on `ℕ`). -/
def daysBeforeYear (y : Nat) : Nat :=
  365 * (y - 1) + (y - 1) / 4 + (y - 1) / 400 - (y - 1) / 100

/-- Python `datetime.toordinal()`: 01/01/0001 has ordinal 1. -/
def toOrd (d : Date) : Nat :=
  daysBeforeYear d.year + daysBeforeMonth d.year d.month + d.day

/-- The dates accepted by Python's `datetime` constructor (`strptime`
validates day-of-month against the month length; `MINYEAR` is 1). -/
def ValidDate (d : Date) : Prop :=
  1 ≤ d.year ∧ 1 ≤ d.month ∧ d.month ≤ 12 ∧ 1 ≤ d.day ∧
    d.day ≤ daysInMonth d.year d.month

instance (d : Date) : Decidable (ValidDate d) := by unfold ValidDate; infer_instance

/-- Python `datetime.weekday()`: Monday = 0, ..., Sunday = 6. -/
def weekday (d : Date) : Nat := (toOrd d - 1) % 7

/-- `current_date + timedelta(days=1)` on a valid date. -/
def nextDate (d : Date) : Date :=
  if d.day < daysInMonth d.year d.month then ⟨d.day + 1, d.month, d.year⟩
  else if d.month < 12 then ⟨1, d.month + 1, d.year⟩
  else ⟨1, 1, d.year + 1⟩

/-- Decimal digits of `n` as characters, most significant first.  Fuel-based
so that the kernel can evaluate it; any `fuel > n` gives the digits of `n`. -/
def natDigitsAux : Nat → Nat → List Char
  | 0, _ => []
  | fuel + 1, n =>
    if n < 10 then [Nat.digitChar n]
    else natDigitsAux fuel (n / 10) ++ [Nat.digitChar (n % 10)]

/-- Decimal rendering of a natural number (Python `str` of an `int ≥ 0`). -/
def natStr (n : Nat) : String := ⟨natDigitsAux (n + 1) n⟩

/-- Two-digit zero padding, as in strftime's `%d` and `%m`. -/
def fmt2 (n : Nat) : String := if n < 10 then "0" ++ natStr n else natStr n

/-- `date_obj.strftime("%d/%m/%Y")`. -/
def formatDate (d : Date) : String :=
  fmt2 d.day ++ "/" ++ fmt2 d.month ++ "/" ++ natStr d.year

/-- Split a character list at every `'/'`. -/
def splitSlash : List Char → List (List Char)
  | [] => [[]]
  | c :: rest =>
    match splitSlash rest with
    | [] => [[]]
    | g :: gs => if c = '/' then [] :: g :: gs else (c :: g) :: gs

/-- Value of a digit string (only applied when every character is a digit). -/
def digitsToNat (cs : List Char) : Nat :=
  cs.foldl (fun a c => a * 10 + (c.toNat - 48)) 0

/-- `datetime.strptime(s, "%d/%m/%Y")`: day and month match one or two
digits, the year exactly four digits, and the resulting triple must be a
constructible date; any failure raises, embedded as `none`. -/
def parseDate (s : String) : Option Date :=
  match splitSlash s.data with
  | [ds, ms, ys] =>
    if (ds.length = 1 ∨ ds.length = 2) ∧ ds.all (·.isDigit)
        ∧ (ms.length = 1 ∨ ms.length = 2) ∧ ms.all (·.isDigit)
        ∧ ys.length = 4 ∧ ys.all (·.isDigit) then
      if ValidDate ⟨digitsToNat ds, digitsToNat ms, digitsToNat ys⟩ then
        some ⟨digitsToNat ds, digitsToNat ms, digitsToNat ys⟩
      else none
    else none
  | _ => none

/-- The `while current_date <= end_date` loop of `date_range`, with explicit
fuel (the loop itself terminates because the current date strictly grows). -/
def dateRangeLoop : Nat → Date → Date → List Date
  | 0, _, _ => []
  | fuel + 1, cur, e =>
    if toOrd cur ≤ toOrd e then cur :: dateRangeLoop fuel (nextDate cur) e
    else []

/-- The list of dates visited by `date_range`'s loop; the fuel
`toOrd e + 1 - toOrd s` is exactly the number of iterations performed. -/
def dateRangeD (s e : Date) : List Date := dateRangeLoop (toOrd e + 1 - toOrd s) s e

/-- `SeajetsScraper.date_range(start_date_str, end_date_str)`: parse both
bounds, then walk day by day, formatting each visited date. -/
def date_range (ss es : String) : Option (List String) :=
  match parseDate ss, parseDate es with
  | some s, some e => some ((dateRangeD s e).map formatDate)
  | _, _ => none

/-- One row of `self.itineraries_data` (a dict with these keys, in this
insertion order). -/
structure Itinerary where
  date : String
  vessel : String
  departureTime : String
  arrivalTime : String
  duration : String
  price : String
  available : Bool
deriving DecidableEq, Repr

/-- One row of `self.seats_data`. -/
structure SeatRecord where
  date : String
  vessel : String
  category : String
  price : String
  availableSeats : String
deriving DecidableEq, Repr

/-- An entry of the `seat_categories` list. -/
structure SeatCategory where
  name : String
  total : Nat
  price : Nat
deriving DecidableEq, Repr

/-- The fixed `seat_categories` list of `generate_sample_seat_data`. -/
def seatCategories : List SeatCategory :=
  [⟨"Economy", 100, 45⟩, ⟨"Business", 50, 75⟩, ⟨"VIP", 20, 120⟩, ⟨"Premium", 10, 180⟩]

/-- The fixed `vessels` list of `generate_sample_data`. -/
def vessels : List String := ["Champion Jet 1", "Champion Jet 2", "Tera Jet", "Super Jet"]

/-- Python `int(x)`: truncation toward zero. -/
def pyTrunc (q : ℚ) : ℤ := if q < 0 then -⌊-q⌋ else ⌊q⌋

/-- `(date_obj - datetime.now()).days`: a timedelta's `.days` is the floor
of the difference measured in days. -/
def daysUntil (now : ℚ) (d : Date) : ℤ := ⌊(toOrd d : ℚ) - now⌋

/-- `min(0.95, max(0.1, days_until / 30))`. -/
def availablePct (now : ℚ) (d : Date) : ℚ :=
  min 0.95 (max 0.1 ((daysUntil now d : ℚ) / 30))

/-- `int(category["total"] * available_pct)`. -/
def seatAvail (now : ℚ) (d : Date) (total : Nat) : Nat :=
  (pyTrunc ((total : ℚ) * availablePct now d)).toNat

/-- `SeajetsScraper.generate_sample_seat_data(date_str, vessel_name)`;
`d` is the parse of `dstr` performed inside the function. -/
def generate_sample_seat_data (dstr : String) (d : Date) (now : ℚ)
    (vesselName : String) : List SeatRecord :=
  let seasonalMultiplier : ℚ := if 6 ≤ d.month ∧ d.month ≤ 9 then 1.5 else 1.0
  let weekendMultiplier : ℚ := if 5 ≤ weekday d then 1.2 else 1.0
  seatCategories.map fun c =>
    let adjustedPrice : ℚ := (c.price : ℚ) * seasonalMultiplier * weekendMultiplier
    { date := dstr
      vessel := vesselName
      category := c.name
      price := "€" ++ natStr (pyTrunc adjustedPrice).toNat
      availableSeats := natStr (seatAvail now d c.total) ++ "/" ++ natStr c.total }

/-- The itinerary record built in iteration `i` of the loop in
`generate_sample_data` (lines 104–133 of `bs_scraper.py`). -/
def mkItin (dstr : String) (d : Date) (now : ℚ) (i : Nat) : Itinerary :=
  let basePrice := 45 + i * 15 + (if 5 ≤ weekday d then 20 else 0)
    + (if 6 ≤ d.month ∧ d.month ≤ 9 then 30 else 0)
  { date := dstr
    vessel := vessels.getD (i % vessels.length) ""
    departureTime := fmt2 (7 + i * 3) ++ ":00"
    arrivalTime := fmt2 (10 + i * 3) ++ ":30"
    duration := "3h 30m"
    price := "€" ++ natStr basePrice
    available := decide (now < (toOrd d : ℚ)) }

/-- `num_itineraries = min(3, max(1, date_obj.day % 4))`. -/
def numItineraries (d : Date) : Nat := min 3 (max 1 (d.day % 4))

/-- `SeajetsScraper.generate_sample_data(date_str)` with `d` the parse of
the date string: the pair of record lists appended to the two accumulators
(itineraries first, then, for each available slot, its seat records). -/
def generate_sample_data (d : Date) (now : ℚ) : List Itinerary × List SeatRecord :=
  if 5 ≤ weekday d then ([], [])
  else
    let dstr := formatDate d
    ((List.range (numItineraries d)).map (mkItin dstr d now),
     (List.range (numItineraries d)).flatMap fun i =>
       if now < (toOrd d : ℚ) then
         generate_sample_seat_data dstr d now (vessels.getD (i % vessels.length) "")
       else [])

/-- All itinerary records accumulated by one scrape over an expanded range. -/
def scrapeItineraries (s e : Date) (now : ℚ) : List Itinerary :=
  (dateRangeD s e).flatMap fun d => (generate_sample_data d now).1

/-- All seat records accumulated by one scrape over an expanded range. -/
def scrapeSeats (s e : Date) (now : ℚ) : List SeatRecord :=
  (dateRangeD s e).flatMap fun d => (generate_sample_data d now).2

/-- A pandas DataFrame, abstracted to its column labels and cell rows
(every cell rendered as its string form). -/
structure Table where
  columns : List String
  rows : List (List String)
deriving DecidableEq, Repr

/-- `pd.DataFrame(records) if records else pd.DataFrame()`: a non-empty
record list yields a frame whose columns are the (shared) dict keys in
insertion order; an empty list yields `pd.DataFrame()`, which has no
columns at all. -/
def mkTable (cols : List String) (rows : List (List String)) : Table :=
  if rows.isEmpty then ⟨[], []⟩ else ⟨cols, rows⟩

/-- Key order of the itinerary dicts. -/
def itinColumns : List String :=
  ["Date", "Vessel", "Departure Time", "Arrival Time", "Duration", "Price", "Available"]

/-- Key order of the seat dicts. -/
def seatColumns : List String :=
  ["Date", "Vessel", "Category", "Price", "Available Seats"]

/-- Python `str` of a bool, as it appears in exported cells. -/
def pyBool (b : Bool) : String := if b then "True" else "False"

/-- The cell row of one itinerary record, in key order. -/
def itinRow (r : Itinerary) : List String :=
  [r.date, r.vessel, r.departureTime, r.arrivalTime, r.duration, r.price, pyBool r.available]

/-- The cell row of one seat record, in key order. -/
def seatRow (r : SeatRecord) : List String :=
  [r.date, r.vessel, r.category, r.price, r.availableSeats]

/-- The dictionary returned by `scrape_seajets`. -/
structure ScrapeResult where
  itineraries : Table
  seats : Table
deriving DecidableEq, Repr

/-- `SeajetsScraper.scrape_seajets(start_date, end_date)`: expand the range,
generate per date, and convert the two accumulators to DataFrames.  A date
parse failure raises, embedded as `none`. -/
def scrape_seajets (ss es : String) (now : ℚ) : Option ScrapeResult :=
  match parseDate ss, parseDate es with
  | some s, some e =>
    some ⟨mkTable itinColumns ((scrapeItineraries s e now).map itinRow),
          mkTable seatColumns ((scrapeSeats s e now).map seatRow)⟩
  | _, _ => none

/-- Minimal CSV quoting (pandas `to_csv` default, `csv.QUOTE_MINIMAL`): a
field is quoted only if it contains the delimiter, a quote or a line break;
quotes inside a quoted field are doubled. -/
def csvCell (s : String) : String :=
  if s.data.any (fun c => c = ',' ∨ c = '\"' ∨ c = '\n' ∨ c = '\r') then
    "\"" ++ (⟨s.data.flatMap fun c => if c = '\"' then ['\"', '\"'] else [c]⟩ : String) ++ "\""
  else s

/-- One CSV line (without its terminator). -/
def csvLine (cells : List String) : String := String.intercalate "," (cells.map csvCell)

/-- `df.to_csv(index=False)`: header line then one line per row, each
terminated by a newline. -/
def to_csv (t : Table) : String :=
  String.join ((csvLine t.columns ++ "\n") :: t.rows.map fun r => csvLine r ++ "\n")

/-- One worksheet as assembled by `export_csv` in `app.py`: a name, the
header styling applied to row 1, the auto-sized column widths, and the
cell contents written by `to_excel`. -/
structure Sheet where
  name : String
  headerFillColor : String
  headerFontColor : String
  headerBold : Bool
  headerCentered : Bool
  columnWidths : List ℚ
  header : List String
  rows : List (List String)
deriving DecidableEq, Repr

/-- The workbook binary, abstracted to the deterministic content the source
writes into it. -/
structure Workbook where
  sheets : List Sheet
deriving DecidableEq, Repr

/-- `adjusted_width = (max_length + 2) * 1.2` where `max_length` is the
longest `str(cell.value)` over all cells of the column, header included. -/
def colWidth (cells : List String) : ℚ :=
  ((cells.foldl (fun m s => max m s.length) 0 : ℕ) + 2) * 1.2

/-- The cells of column `j` of a table, header first (the `for cell in
column` loop iterates over row 1 and the data rows). -/
def columnCells (t : Table) (j : Nat) : List String :=
  t.columns.getD j "" :: t.rows.map fun row => row.getD j ""

/-- One styled sheet: fixed fill `0052CC`, bold white font, centered
header, auto-adjusted widths. -/
def sheetOf (nm : String) (t : Table) : Sheet :=
  { name := nm
    headerFillColor := "0052CC"
    headerFontColor := "FFFFFF"
    headerBold := true
    headerCentered := true
    columnWidths := (List.range t.columns.length).map fun j => colWidth (columnCells t j)
    header := t.columns
    rows := t.rows }

/-- The Excel workbook built by `export_csv`: two named sheets, both
styled the same way.  Nothing besides the two tables flows into it. -/
def to_excel (itins seats : Table) : Workbook :=
  ⟨[sheetOf "Itineraries" itins, sheetOf "Seat Availability" seats]⟩

/-- The JSON payload returned by the `/export_csv` route. -/
structure ExportResponse where
  itinerariesCsv : String
  seatsCsv : String
  excelData : Workbook
  filenameStamp : String
deriving DecidableEq, Repr

/-- `export_csv` in `app.py`, with the value of `datetime.now().strftime(
'%Y%m%d_%H%M%S')` passed in as `nowStamp`: the only place the generation
timestamp reaches is the external filename stem. -/
def export_csv (itins seats : Table) (nowStamp : String) : ExportResponse :=
  { itinerariesCsv := to_csv itins
    seatsCsv := to_csv seats
    excelData := to_excel itins seats
    filenameStamp := "seajets_scrape_" ++ nowStamp }

/-- Modelled from the claim's words (claim C1, spec §3/§8): slot count
`clamp(1 + (day mod 4), 1, 3)`.  Kept separate so it can be compared with
the source's `min(3, max(1, day % 4))` (`numItineraries`). -/
def specSlotCount (d : Date) : Nat := min 3 (max 1 (1 + d.day % 4))

end Seajets

namespace Seajets

/-! ## Calendar arithmetic -/

lemma daysInMonth_ge (y m : Nat) : 28 ≤ daysInMonth y m := by
  unfold daysInMonth
  split
  · split <;> omega
  · split <;> omega

lemma daysBeforeMonth_succ (y m : Nat) (hm : 1 ≤ m) :
    daysBeforeMonth y (m + 1) = daysBeforeMonth y m + daysInMonth y m := by
  cases m with
  | zero => omega
  | succ k => simp [daysBeforeMonth]

lemma daysBeforeMonth_mono (y : Nat) {a b : Nat} (h : a ≤ b) :
    daysBeforeMonth y a ≤ daysBeforeMonth y b := by
  induction h with
  | refl => exact Nat.le_refl _
  | step h ih =>
    calc daysBeforeMonth y a ≤ daysBeforeMonth y _ := ih
    _ ≤ _ := by simp [daysBeforeMonth]

lemma daysBeforeMonth_thirteen (y : Nat) :
    daysBeforeMonth y 13 = daysInYear y := by
  cases h : isLeap y <;>
    simp +arith [show (13:Nat) = 12+1 from rfl, show (12:Nat) = 11+1 from rfl,
      show (11:Nat) = 10+1 from rfl, show (10:Nat) = 9+1 from rfl,
      show (9:Nat) = 8+1 from rfl, show (8:Nat) = 7+1 from rfl,
      show (7:Nat) = 6+1 from rfl, show (6:Nat) = 5+1 from rfl,
      show (5:Nat) = 4+1 from rfl, show (4:Nat) = 3+1 from rfl,
      show (3:Nat) = 2+1 from rfl, show (2:Nat) = 1+1 from rfl,
      daysBeforeMonth, daysInMonth, daysInYear, h]

lemma isLeap_iff (y : Nat) : isLeap y = true ↔ ((4 ∣ y ∧ ¬(100 ∣ y)) ∨ 400 ∣ y) := by
  simp [isLeap, Nat.dvd_iff_mod_eq_zero]

lemma daysBeforeYear_succ (y : Nat) (hy : 1 ≤ y) :
    daysBeforeYear (y + 1) = daysBeforeYear y + daysInYear y := by
  obtain ⟨n, rfl⟩ : ∃ n, y = n + 1 := ⟨y - 1, by omega⟩
  unfold daysBeforeYear daysInYear
  by_cases h4 : 4 ∣ (n + 1)
  · by_cases h100 : 100 ∣ (n + 1)
    · by_cases h400 : 400 ∣ (n + 1)
      · rw [if_pos (by rw [isLeap_iff]; right; exact h400)]
        simp only [Nat.add_sub_cancel]
        rw [Nat.dvd_iff_mod_eq_zero] at h4 h100 h400
        omega
      · rw [if_neg (by rw [isLeap_iff]; push_neg; exact ⟨fun _ => h100, h400⟩)]
        simp only [Nat.add_sub_cancel]
        rw [Nat.dvd_iff_mod_eq_zero] at h4 h100
        rw [Nat.dvd_iff_mod_eq_zero] at h400
        omega
    · rw [if_pos (by rw [isLeap_iff]; left; exact ⟨h4, h100⟩)]
      simp only [Nat.add_sub_cancel]
      have h400 : ¬ (400 ∣ (n+1)) := fun h => h100 (dvd_trans (by norm_num) h)
      rw [Nat.dvd_iff_mod_eq_zero] at h4
      rw [Nat.dvd_iff_mod_eq_zero] at h100 h400
      omega
  · have h100 : ¬ (100 ∣ (n+1)) := fun h => h4 (dvd_trans (by norm_num) h)
    have h400 : ¬ (400 ∣ (n+1)) := fun h => h4 (dvd_trans (by norm_num) h)
    rw [if_neg (by rw [isLeap_iff]; push_neg; exact ⟨fun h => absurd h h4, h400⟩)]
    simp only [Nat.add_sub_cancel]
    rw [Nat.dvd_iff_mod_eq_zero] at h4
    rw [Nat.dvd_iff_mod_eq_zero] at h100 h400
    omega

lemma daysInYear_ge (y : Nat) : 365 ≤ daysInYear y := by
  unfold daysInYear; split <;> omega

lemma daysBeforeYear_mono {a b : Nat} (ha : 1 ≤ a) (h : a ≤ b) :
    daysBeforeYear a ≤ daysBeforeYear b := by
  induction h with
  | refl => exact Nat.le_refl _
  | step h ih =>
    have h1 : 1 ≤ _ := le_trans ha h
    calc daysBeforeYear a ≤ daysBeforeYear _ := ih
    _ ≤ _ := by rw [daysBeforeYear_succ _ h1]; omega

lemma dayOfYear_le (d : Date) (h : ValidDate d) :
    daysBeforeMonth d.year d.month + d.day ≤ daysInYear d.year := by
  obtain ⟨hy, hm1, hm2, hd1, hd2⟩ := h
  calc daysBeforeMonth d.year d.month + d.day
      ≤ daysBeforeMonth d.year d.month + daysInMonth d.year d.month := by omega
  _ = daysBeforeMonth d.year (d.month + 1) := (daysBeforeMonth_succ _ _ hm1).symm
  _ ≤ daysBeforeMonth d.year 13 := daysBeforeMonth_mono _ (by omega)
  _ = daysInYear d.year := daysBeforeMonth_thirteen _

lemma nextDate_valid (d : Date) (h : ValidDate d) : ValidDate (nextDate d) := by
  obtain ⟨hy, hm1, hm2, hd1, hd2⟩ := h
  unfold nextDate
  split
  · rename_i h1
    exact ⟨hy, hm1, hm2, by show 1 ≤ d.day + 1; omega,
      by show d.day + 1 ≤ daysInMonth d.year d.month; omega⟩
  · split
    · rename_i h1 h2
      exact ⟨hy, by show 1 ≤ d.month + 1; omega, by show d.month + 1 ≤ 12; omega,
        Nat.le_refl 1,
        by show 1 ≤ daysInMonth d.year (d.month + 1)
           have := daysInMonth_ge d.year (d.month + 1); omega⟩
    · rename_i h1 h2
      exact ⟨by show 1 ≤ d.year + 1; omega, Nat.le_refl 1, by show (1:Nat) ≤ 12; omega,
        Nat.le_refl 1,
        by show 1 ≤ daysInMonth (d.year + 1) 1
           have := daysInMonth_ge (d.year + 1) 1; omega⟩

lemma toOrd_nextDate (d : Date) (h : ValidDate d) : toOrd (nextDate d) = toOrd d + 1 := by
  obtain ⟨hy, hm1, hm2, hd1, hd2⟩ := h
  unfold nextDate
  split
  · simp only [toOrd]
    omega
  · rename_i h1
    split
    · simp only [toOrd]
      rw [daysBeforeMonth_succ d.year d.month hm1]
      omega
    · rename_i h2
      have hm : d.month = 12 := by omega
      simp only [toOrd]
      rw [daysBeforeYear_succ d.year hy]
      have h13 := daysBeforeMonth_thirteen d.year
      rw [show (13:Nat) = 12 + 1 from rfl, daysBeforeMonth_succ d.year 12 (by omega)] at h13
      rw [hm] at h1 hd2 ⊢
      have hB1 : daysBeforeMonth (d.year + 1) 1 = 0 := rfl
      rw [hB1]
      omega

lemma toOrd_pos (d : Date) (h : ValidDate d) : 1 ≤ toOrd d := by
  obtain ⟨hy, hm1, hm2, hd1, hd2⟩ := h
  unfold toOrd
  omega

lemma toOrd_lt_toOrd (d₁ d₂ : Date) (h₁ : ValidDate d₁) (h₂ : ValidDate d₂)
    (h : d₁.year < d₂.year ∨ (d₁.year = d₂.year ∧ d₁.month < d₂.month)
      ∨ (d₁.year = d₂.year ∧ d₁.month = d₂.month ∧ d₁.day < d₂.day)) :
    toOrd d₁ < toOrd d₂ := by
  obtain ⟨hy1, hm11, hm12, hd11, hd12⟩ := h₁
  rcases h with hy | ⟨hy, hm⟩ | ⟨hy, hm, hd⟩
  · have hb := dayOfYear_le d₁ ⟨hy1, hm11, hm12, hd11, hd12⟩
    have hsucc := daysBeforeYear_succ d₁.year hy1
    have hmono := daysBeforeYear_mono (a := d₁.year + 1) (b := d₂.year) (by omega) (by omega)
    have hpos : 1 ≤ d₂.day := h₂.2.2.2.1
    unfold toOrd
    omega
  · have hstep : daysBeforeMonth d₁.year d₁.month + daysInMonth d₁.year d₁.month
        = daysBeforeMonth d₁.year (d₁.month + 1) := (daysBeforeMonth_succ _ _ hm11).symm
    have hmono := daysBeforeMonth_mono d₁.year (a := d₁.month + 1) (b := d₂.month) (by omega)
    have hpos : 1 ≤ d₂.day := h₂.2.2.2.1
    unfold toOrd
    rw [hy] at hstep hmono hd12 ⊢
    omega
  · unfold toOrd
    rw [hy, hm]
    omega

lemma toOrd_injOn (d₁ d₂ : Date) (h₁ : ValidDate d₁) (h₂ : ValidDate d₂)
    (h : toOrd d₁ = toOrd d₂) : d₁ = d₂ := by
  rcases Nat.lt_trichotomy d₁.year d₂.year with hy | hy | hy
  · exact absurd h (Nat.ne_of_lt (toOrd_lt_toOrd d₁ d₂ h₁ h₂ (Or.inl hy)))
  · rcases Nat.lt_trichotomy d₁.month d₂.month with hm | hm | hm
    · exact absurd h (Nat.ne_of_lt (toOrd_lt_toOrd d₁ d₂ h₁ h₂ (Or.inr (Or.inl ⟨hy, hm⟩))))
    · rcases Nat.lt_trichotomy d₁.day d₂.day with hd | hd | hd
      · exact absurd h
          (Nat.ne_of_lt (toOrd_lt_toOrd d₁ d₂ h₁ h₂ (Or.inr (Or.inr ⟨hy, hm, hd⟩))))
      · cases d₁; cases d₂
        simp_all
      · exact absurd h.symm
          (Nat.ne_of_lt (toOrd_lt_toOrd d₂ d₁ h₂ h₁ (Or.inr (Or.inr ⟨hy.symm, hm.symm, hd⟩))))
    · exact absurd h.symm
        (Nat.ne_of_lt (toOrd_lt_toOrd d₂ d₁ h₂ h₁ (Or.inr (Or.inl ⟨hy.symm, hm⟩))))
  · exact absurd h.symm (Nat.ne_of_lt (toOrd_lt_toOrd d₂ d₁ h₂ h₁ (Or.inl hy)))


/-! ## The date-range loop -/

lemma iterate_nextDate_valid (k : Nat) (d : Date) (h : ValidDate d) :
    ValidDate (nextDate^[k] d) := by
  induction k with
  | zero => simpa using h
  | succ n ih =>
    rw [Function.iterate_succ_apply']
    exact nextDate_valid _ ih

lemma toOrd_iterate_nextDate (k : Nat) (d : Date) (h : ValidDate d) :
    toOrd (nextDate^[k] d) = toOrd d + k := by
  induction k with
  | zero => simp
  | succ n ih =>
    rw [Function.iterate_succ_apply', toOrd_nextDate _ (iterate_nextDate_valid n d h), ih]
    omega

lemma dateRangeLoop_eq (e : Date) (fuel : Nat) :
    ∀ cur : Date, ValidDate cur → toOrd e + 1 - toOrd cur ≤ fuel →
      dateRangeLoop fuel cur e
        = (List.range (toOrd e + 1 - toOrd cur)).map (fun k => nextDate^[k] cur) := by
  induction fuel with
  | zero =>
    intro cur hv hf
    have h0 : toOrd e + 1 - toOrd cur = 0 := by omega
    simp [dateRangeLoop, h0]
  | succ n ih =>
    intro cur hv hf
    by_cases h : toOrd cur ≤ toOrd e
    · have hstep := toOrd_nextDate cur hv
      have hcount : toOrd e + 1 - toOrd cur = (toOrd e + 1 - toOrd (nextDate cur)) + 1 := by
        omega
      rw [show dateRangeLoop (n + 1) cur e
            = if toOrd cur ≤ toOrd e then cur :: dateRangeLoop n (nextDate cur) e else []
          from rfl, if_pos h]
      rw [ih (nextDate cur) (nextDate_valid cur hv) (by omega)]
      rw [hcount, List.range_succ_eq_map]
      simp only [List.map_cons, List.map_map, Function.iterate_zero, id_eq, List.cons.injEq,
        true_and]
      apply List.map_congr_left
      intro k _
      simp [Function.iterate_succ_apply]
    · have h0 : toOrd e + 1 - toOrd cur = 0 := by omega
      rw [show dateRangeLoop (n + 1) cur e
            = if toOrd cur ≤ toOrd e then cur :: dateRangeLoop n (nextDate cur) e else []
          from rfl, if_neg h, h0]
      simp

lemma dateRangeD_eq (s e : Date) (hs : ValidDate s) :
    dateRangeD s e = (List.range (toOrd e + 1 - toOrd s)).map (fun k => nextDate^[k] s) :=
  dateRangeLoop_eq e _ s hs (Nat.le_refl _)

lemma mem_dateRangeD {s e d : Date} (hs : ValidDate s) :
    d ∈ dateRangeD s e ↔ ∃ k, k < toOrd e + 1 - toOrd s ∧ d = nextDate^[k] s := by
  rw [dateRangeD_eq s e hs]
  simp [List.mem_map, List.mem_range]

lemma mem_dateRangeD_valid {s e d : Date} (hs : ValidDate s) (hd : d ∈ dateRangeD s e) :
    ValidDate d := by
  obtain ⟨k, -, rfl⟩ := (mem_dateRangeD hs).1 hd
  exact iterate_nextDate_valid k s hs

lemma parseDate_valid {s : String} {d : Date} (h : parseDate s = some d) : ValidDate d := by
  unfold parseDate at h
  split at h
  · split at h
    · split at h
      · rename_i hv
        cases h
        exact hv
      · exact Option.noConfusion h
    · exact Option.noConfusion h
  · exact Option.noConfusion h


/-! ## Claim C5: date-range expansion -/

/-- Claim C5 (confirmed): for every pair of validly formatted start and end
dates, `date_range` returns the per-day walk from start to end formatted
back to strings; when start ≤ end that walk is non-decreasing (in ordinal
time), contains the start as first and the end as last element, and has the
inclusive day count as length; when start > end it is empty, with no
error. -/
theorem claim5_date_range_expansion (ss es : String) (s e : Date)
    (hs : parseDate ss = some s) (he : parseDate es = some e) :
    date_range ss es = some ((dateRangeD s e).map formatDate)
    ∧ (toOrd s ≤ toOrd e →
        (dateRangeD s e).length = toOrd e + 1 - toOrd s
        ∧ (dateRangeD s e).head? = some s
        ∧ (dateRangeD s e).getLast? = some e
        ∧ (dateRangeD s e).Pairwise fun a b => toOrd a ≤ toOrd b)
    ∧ (toOrd e < toOrd s → dateRangeD s e = []) := by
  have hvs := parseDate_valid hs
  have hve := parseDate_valid he
  refine ⟨by simp [date_range, hs, he], fun hle => ⟨?_, ?_, ?_, ?_⟩, fun hlt => ?_⟩
  · rw [dateRangeD_eq s e hvs]; simp
  · have hn : toOrd e + 1 - toOrd s = (toOrd e - toOrd s) + 1 := by omega
    rw [dateRangeD_eq s e hvs, hn, List.range_succ_eq_map]
    simp
  · rw [dateRangeD_eq s e hvs, List.getLast?_eq_getElem?]
    simp only [List.length_map, List.length_range]
    rw [List.getElem?_map,
      List.getElem?_range (show toOrd e + 1 - toOrd s - 1 < toOrd e + 1 - toOrd s by omega)]
    simp only [Option.map_some']
    congr 1
    apply toOrd_injOn _ _ (iterate_nextDate_valid _ s hvs) hve
    rw [toOrd_iterate_nextDate _ s hvs]
    omega
  · rw [dateRangeD_eq s e hvs, List.pairwise_map]
    exact (List.pairwise_lt_range _).imp fun {a b} hab => by
      rw [toOrd_iterate_nextDate _ s hvs, toOrd_iterate_nextDate _ s hvs]
      omega
  · rw [dateRangeD_eq s e hvs]
    simp [show toOrd e + 1 - toOrd s = 0 from by omega]

/-- Witness for C5 at the spec's concrete inputs "01/06/2025".."03/06/2025". -/
theorem claim5_date_range_expansion_witness :
    (parseDate "01/06/2025" = some ⟨1, 6, 2025⟩)
    ∧ (parseDate "03/06/2025" = some ⟨3, 6, 2025⟩)
    ∧ (date_range "01/06/2025" "03/06/2025"
        = some ((dateRangeD ⟨1, 6, 2025⟩ ⟨3, 6, 2025⟩).map formatDate)
      ∧ (toOrd (⟨1, 6, 2025⟩ : Date) ≤ toOrd (⟨3, 6, 2025⟩ : Date) →
          (dateRangeD ⟨1, 6, 2025⟩ ⟨3, 6, 2025⟩).length
              = toOrd (⟨3, 6, 2025⟩ : Date) + 1 - toOrd (⟨1, 6, 2025⟩ : Date)
          ∧ (dateRangeD ⟨1, 6, 2025⟩ ⟨3, 6, 2025⟩).head? = some ⟨1, 6, 2025⟩
          ∧ (dateRangeD ⟨1, 6, 2025⟩ ⟨3, 6, 2025⟩).getLast? = some ⟨3, 6, 2025⟩
          ∧ (dateRangeD ⟨1, 6, 2025⟩ ⟨3, 6, 2025⟩).Pairwise fun a b => toOrd a ≤ toOrd b)
      ∧ (toOrd (⟨3, 6, 2025⟩ : Date) < toOrd (⟨1, 6, 2025⟩ : Date) →
          dateRangeD ⟨1, 6, 2025⟩ ⟨3, 6, 2025⟩ = [])) :=
  ⟨by decide, by decide,
    claim5_date_range_expansion "01/06/2025" "03/06/2025" ⟨1, 6, 2025⟩ ⟨3, 6, 2025⟩
      (by decide) (by decide)⟩


/-! ## The sample-data generator: per-date claims -/

lemma numItineraries_le_three (d : Date) : numItineraries d ≤ 3 := min_le_left _ _

lemma generate_itins_eq (d : Date) (now : ℚ) (h : ¬ 5 ≤ weekday d) :
    (generate_sample_data d now).1
      = (List.range (numItineraries d)).map (mkItin (formatDate d) d now) := by
  unfold generate_sample_data
  rw [if_neg h]

lemma generate_seats_eq (d : Date) (now : ℚ) (h : ¬ 5 ≤ weekday d) :
    (generate_sample_data d now).2
      = (List.range (numItineraries d)).flatMap fun i =>
          if now < (toOrd d : ℚ) then
            generate_sample_seat_data (formatDate d) d now
              (vessels.getD (i % vessels.length) "")
          else [] := by
  unfold generate_sample_data
  rw [if_neg h]

lemma mem_generate_itins {d : Date} {now : ℚ} {it : Itinerary}
    (h : it ∈ (generate_sample_data d now).1) :
    weekday d < 5 ∧ ∃ i < numItineraries d, it = mkItin (formatDate d) d now i := by
  unfold generate_sample_data at h
  split at h
  · simp at h
  · rename_i hw
    simp only [List.mem_map, List.mem_range] at h
    obtain ⟨i, hi, rfl⟩ := h
    exact ⟨by omega, i, hi, rfl⟩

/-- Claim C4 (confirmed): a date whose weekday is Saturday (5) or Sunday (6)
produces zero itinerary records and zero seat records — `generate_sample_data`
returns before generating anything. -/
theorem claim4_weekend_no_service (d : Date) (now : ℚ) (h : 5 ≤ weekday d) :
    generate_sample_data d now = ([], []) := by
  unfold generate_sample_data
  rw [if_pos h]

/-- Witness for C4 on Saturday 07/06/2025. -/
theorem claim4_weekend_no_service_witness :
    5 ≤ weekday ⟨7, 6, 2025⟩ ∧ generate_sample_data ⟨7, 6, 2025⟩ 0 = ([], []) :=
  ⟨by decide, claim4_weekend_no_service ⟨7, 6, 2025⟩ 0 (by decide)⟩

/-- Claim C1 as stated is false at day-of-month 1: on 01/07/2025 (a Tuesday)
the source generates `min(3, max(1, 1 % 4)) = 1` itinerary, while the claimed
formula `clamp(1 + (day mod 4), 1, 3)` (`specSlotCount`) gives 2.  (The
claim's own example "day=1 → 1 itinerary" agrees with the code and
contradicts the claim's formula.) -/
theorem claim1_slot_count_counterexample :
    weekday ⟨1, 7, 2025⟩ < 5
    ∧ (generate_sample_data ⟨1, 7, 2025⟩ 0).1.length = 1
    ∧ specSlotCount ⟨1, 7, 2025⟩ = 2
    ∧ (generate_sample_data ⟨1, 7, 2025⟩ 0).1.length ≠ specSlotCount ⟨1, 7, 2025⟩ := by
  decide

/-- Claim C1 corrected: for every non-weekend date, the number of itinerary
records generated equals `min(3, max(1, day mod 4))` (equivalently
`clamp(day mod 4, 1, 3)`), so day 15 yields 3 itineraries and day 1 yields
1 itinerary. -/
theorem claim1_slot_count_amended (d : Date) (now : ℚ) (h : weekday d < 5) :
    (generate_sample_data d now).1.length = min 3 (max 1 (d.day % 4)) := by
  rw [generate_itins_eq d now (by omega)]
  simp [numItineraries]

/-- Witness for the corrected C1 on Tuesday 15/07/2025 (3 slots). -/
theorem claim1_slot_count_amended_witness :
    weekday ⟨15, 7, 2025⟩ < 5
    ∧ (generate_sample_data ⟨15, 7, 2025⟩ 0).1.length = min 3 (max 1 (15 % 4)) :=
  ⟨by decide, claim1_slot_count_amended ⟨15, 7, 2025⟩ 0 (by decide)⟩

/-- Claim C7 (confirmed): the `+20` weekend-surcharge branch of the pricing
code is dead.  Every itinerary record that is actually emitted carries price
`45 + i*15` plus 30 in June–September — the weekend surcharge never
contributes, because weekend dates are filtered out before pricing runs. -/
theorem claim7_no_weekend_surcharge (d : Date) (now : ℚ) (it : Itinerary)
    (h : it ∈ (generate_sample_data d now).1) :
    ∃ i, i < numItineraries d
      ∧ it = mkItin (formatDate d) d now i
      ∧ it.price = "€" ++ natStr (45 + i * 15
          + (if 6 ≤ d.month ∧ d.month ≤ 9 then 30 else 0)) := by
  obtain ⟨hw, i, hi, rfl⟩ := mem_generate_itins h
  refine ⟨i, hi, rfl, ?_⟩
  have hw5 : ¬ 5 ≤ weekday d := by omega
  simp [mkItin, hw5]

/-- Witness for C7 on the first slot of Monday 02/06/2025. -/
theorem claim7_no_weekend_surcharge_witness :
    (mkItin "02/06/2025" ⟨2, 6, 2025⟩ 0 0 ∈ (generate_sample_data ⟨2, 6, 2025⟩ 0).1)
    ∧ ∃ i, i < numItineraries ⟨2, 6, 2025⟩
      ∧ mkItin "02/06/2025" ⟨2, 6, 2025⟩ 0 0
          = mkItin (formatDate ⟨2, 6, 2025⟩) ⟨2, 6, 2025⟩ 0 i
      ∧ (mkItin "02/06/2025" ⟨2, 6, 2025⟩ 0 0).price = "€" ++ natStr (45 + i * 15
          + (if 6 ≤ (⟨2, 6, 2025⟩ : Date).month ∧ (⟨2, 6, 2025⟩ : Date).month ≤ 9
             then 30 else 0)) :=
  ⟨by decide, claim7_no_weekend_surcharge ⟨2, 6, 2025⟩ 0 _ (by decide)⟩

/-- Claim C10 (confirmed): every generated itinerary departs at `(7+3i):00`
and arrives at `(10+3i):30`, a delta of exactly 3h30m (210 minutes), so the
constant `"3h 30m"` duration string always agrees with the
departure/arrival pair even though it is not computed from it. -/
theorem claim10_duration_consistent (d : Date) (now : ℚ) (it : Itinerary)
    (h : it ∈ (generate_sample_data d now).1) :
    ∃ i, i < numItineraries d
      ∧ it.departureTime = fmt2 (7 + i * 3) ++ ":00"
      ∧ it.arrivalTime = fmt2 (10 + i * 3) ++ ":30"
      ∧ ((10 + i * 3) * 60 + 30) - ((7 + i * 3) * 60) = 3 * 60 + 30
      ∧ it.duration = "3h 30m" := by
  obtain ⟨hw, i, hi, rfl⟩ := mem_generate_itins h
  exact ⟨i, hi, rfl, rfl, by omega, rfl⟩

/-- Witness for C10 on the first slot of Monday 02/06/2025. -/
theorem claim10_duration_consistent_witness :
    (mkItin "02/06/2025" ⟨2, 6, 2025⟩ 0 0 ∈ (generate_sample_data ⟨2, 6, 2025⟩ 0).1)
    ∧ ∃ i, i < numItineraries ⟨2, 6, 2025⟩
      ∧ (mkItin "02/06/2025" ⟨2, 6, 2025⟩ 0 0).departureTime = fmt2 (7 + i * 3) ++ ":00"
      ∧ (mkItin "02/06/2025" ⟨2, 6, 2025⟩ 0 0).arrivalTime = fmt2 (10 + i * 3) ++ ":30"
      ∧ ((10 + i * 3) * 60 + 30) - ((7 + i * 3) * 60) = 3 * 60 + 30
      ∧ (mkItin "02/06/2025" ⟨2, 6, 2025⟩ 0 0).duration = "3h 30m" :=
  ⟨by decide, claim10_duration_consistent ⟨2, 6, 2025⟩ 0 _ (by decide)⟩

/-- Claim C2 as stated is false: on Monday 02/06/2025 the two generated
itineraries are served by "Champion Jet 1" and "Champion Jet 2" (slots 0
and 1 of the vessel list), not by "Champion Jet 1" and "Tera Jet" as the
claim says. -/
theorem claim2_vessels_counterexample :
    ((generate_sample_data ⟨2, 6, 2025⟩ 0).1.map (·.vessel))
        = ["Champion Jet 1", "Champion Jet 2"]
    ∧ ((generate_sample_data ⟨2, 6, 2025⟩ 0).1.map (·.vessel))
        ≠ ["Champion Jet 1", "Tera Jet"] := by
  decide

/-- Claim C2 corrected: expanding 01/06/2025..03/06/2025 yields exactly the
three date strings; 01/06/2025 (Sunday) produces zero records; 02/06/2025
(Monday, day 2) produces exactly 2 itineraries with vessels
["Champion Jet 1", "Champion Jet 2"], departures ["07:00", "10:00"] and
prices €75 and €90 (base 45 and 60 plus the +30 June surcharge) — for any
generation time `now`. -/
theorem claim2_concrete_scenario_amended (now : ℚ) :
    date_range "01/06/2025" "03/06/2025"
        = some ["01/06/2025", "02/06/2025", "03/06/2025"]
    ∧ generate_sample_data ⟨1, 6, 2025⟩ now = ([], [])
    ∧ (generate_sample_data ⟨2, 6, 2025⟩ now).1.map (·.vessel)
        = ["Champion Jet 1", "Champion Jet 2"]
    ∧ (generate_sample_data ⟨2, 6, 2025⟩ now).1.map (·.departureTime) = ["07:00", "10:00"]
    ∧ (generate_sample_data ⟨2, 6, 2025⟩ now).1.map (·.price) = ["€75", "€90"] := by
  have hrw := generate_itins_eq ⟨2, 6, 2025⟩ now (by decide)
  rw [show numItineraries ⟨2, 6, 2025⟩ = 2 from by decide] at hrw
  refine ⟨by decide, ?_, ?_, ?_, ?_⟩
  · unfold generate_sample_data
    rw [if_pos (by decide : 5 ≤ weekday ⟨1, 6, 2025⟩)]
  · rw [hrw]
    simp [List.range_succ, mkItin, vessels]
  · rw [hrw]
    simp [List.range_succ, mkItin]
    decide
  · rw [hrw]
    simp [List.range_succ, mkItin]
    decide


/-! ## Claim C6: seat-count bounds -/

lemma availablePct_bounds (now : ℚ) (d : Date) :
    (0.1 : ℚ) ≤ availablePct now d ∧ availablePct now d ≤ (0.95 : ℚ) := by
  unfold availablePct
  exact ⟨le_min (by norm_num) (le_max_left _ _), min_le_left _ _⟩

lemma floor_tenth (total : Nat) : ⌊(total : ℚ) * 0.1⌋ = (total / 10 : Nat) := by
  have h1 : (total / 10) * 10 ≤ total := Nat.div_mul_le_self total 10
  have h2 : total < (total / 10) * 10 + 10 := by omega
  have h1q : ((total / 10 : Nat) : ℚ) * 10 ≤ (total : ℚ) := by exact_mod_cast h1
  have h2q : (total : ℚ) < ((total / 10 : Nat) : ℚ) * 10 + 10 := by exact_mod_cast h2
  have e01 : (0.1 : ℚ) = 1 / 10 := by norm_num
  refine Int.floor_eq_iff.2 ⟨?_, ?_⟩
  · show (((total / 10 : Nat) : ℤ) : ℚ) ≤ (total : ℚ) * 0.1
    rw [e01, Int.cast_natCast]
    linarith
  · show (total : ℚ) * 0.1 < (((total / 10 : Nat) : ℤ) : ℚ) + 1
    rw [e01, Int.cast_natCast]
    linarith

lemma seatAvail_bounds (now : ℚ) (d : Date) (total : Nat) :
    total / 10 ≤ seatAvail now d total ∧ seatAvail now d total ≤ total := by
  obtain ⟨h1, h2⟩ := availablePct_bounds now d
  have hpct0 : 0 ≤ availablePct now d := le_trans (by norm_num) h1
  have hprod0 : 0 ≤ (total : ℚ) * availablePct now d :=
    mul_nonneg (by positivity) hpct0
  unfold seatAvail pyTrunc
  rw [if_neg (not_lt.2 hprod0)]
  constructor
  · rw [Int.le_toNat (Int.floor_nonneg.2 hprod0)]
    rw [Int.le_floor]
    calc ((total / 10 : Nat) : ℚ) ≤ (total : ℚ) / 10 := Nat.cast_div_le
    _ = (total : ℚ) * 0.1 := by rw [show (0.1 : ℚ) = 1 / 10 by norm_num]; ring
    _ ≤ (total : ℚ) * availablePct now d :=
        mul_le_mul_of_nonneg_left h1 (by positivity)
  · rw [Int.toNat_le]
    calc ⌊(total : ℚ) * availablePct now d⌋
        ≤ ⌊(total : ℚ)⌋ := Int.floor_le_floor
          (mul_le_of_le_one_right (by positivity) (h2.trans (by norm_num)))
    _ = (total : ℤ) := Int.floor_natCast total

lemma mem_generate_seats {d : Date} {now : ℚ} {r : SeatRecord}
    (h : r ∈ (generate_sample_data d now).2) :
    weekday d < 5 ∧ now < (toOrd d : ℚ)
    ∧ ∃ i < numItineraries d,
        r ∈ generate_sample_seat_data (formatDate d) d now
            (vessels.getD (i % vessels.length) "") := by
  unfold generate_sample_data at h
  split at h
  · simp at h
  · rename_i hw
    simp only [List.mem_flatMap, List.mem_range] at h
    obtain ⟨i, hi, hr⟩ := h
    split at hr
    · rename_i hfut
      exact ⟨by omega, hfut, i, hi, hr⟩
    · simp at hr

lemma mem_seat_data {dstr : String} {d : Date} {now : ℚ} {v : String} {r : SeatRecord}
    (h : r ∈ generate_sample_seat_data dstr d now v) :
    ∃ c ∈ seatCategories,
      r = { date := dstr
            vessel := v
            category := c.name
            price := "€" ++ natStr (pyTrunc ((c.price : ℚ)
              * (if 6 ≤ d.month ∧ d.month ≤ 9 then 1.5 else 1.0)
              * (if 5 ≤ weekday d then 1.2 else 1.0))).toNat
            availableSeats := natStr (seatAvail now d c.total) ++ "/" ++ natStr c.total } := by
  unfold generate_sample_seat_data at h
  simp only [List.mem_map] at h
  obtain ⟨c, hc, rfl⟩ := h
  exact ⟨c, hc, rfl⟩

/-- Claim C6 (confirmed): every seat record emitted belongs to one of the
four fixed categories, its rendered "available/total" string carries the
count `seatAvail`, and that count lies between `⌊0.10 * total⌋` and the
category total (hence it is non-negative). -/
theorem claim6_seat_count_bounds (d : Date) (now : ℚ) (r : SeatRecord)
    (h : r ∈ (generate_sample_data d now).2) :
    ∃ c ∈ seatCategories,
      r.category = c.name
      ∧ r.availableSeats = natStr (seatAvail now d c.total) ++ "/" ++ natStr c.total
      ∧ ⌊(c.total : ℚ) * 0.1⌋ ≤ (seatAvail now d c.total : ℤ)
      ∧ seatAvail now d c.total ≤ c.total := by
  obtain ⟨hw, hfut, i, hi, hr⟩ := mem_generate_seats h
  obtain ⟨c, hc, rfl⟩ := mem_seat_data hr
  refine ⟨c, hc, rfl, rfl, ?_, (seatAvail_bounds now d c.total).2⟩
  rw [floor_tenth c.total]
  exact_mod_cast (seatAvail_bounds now d c.total).1

/-- Any category of `seatCategories` contributes its record to
`generate_sample_seat_data`. -/
lemma seat_record_mem (dstr : String) (d : Date) (now : ℚ) (v : String)
    (c : SeatCategory) (hc : c ∈ seatCategories) :
    ({ date := dstr
       vessel := v
       category := c.name
       price := "€" ++ natStr (pyTrunc ((c.price : ℚ)
         * (if 6 ≤ d.month ∧ d.month ≤ 9 then 1.5 else 1.0)
         * (if 5 ≤ weekday d then 1.2 else 1.0))).toNat
       availableSeats := natStr (seatAvail now d c.total) ++ "/" ++ natStr c.total }
      : SeatRecord) ∈ generate_sample_seat_data dstr d now v := by
  unfold generate_sample_seat_data
  exact List.mem_map.2 ⟨c, hc, rfl⟩

/-- The concrete Economy seat record of slot 0 on 02/06/2025 at
generation time 0 is among the generated seat records. -/
lemma economySeat_mem :
    (⟨"02/06/2025", "Champion Jet 1", "Economy", "€67", "95/100"⟩ : SeatRecord)
      ∈ (generate_sample_data ⟨2, 6, 2025⟩ 0).2 := by
  have f5 : seatAvail 0 ⟨2, 6, 2025⟩ (⟨"Economy", 100, 45⟩ : SeatCategory).total = 95 := by
    with_unfolding_all decide
  have f4 : (pyTrunc (((⟨"Economy", 100, 45⟩ : SeatCategory).price : ℚ)
      * (if 6 ≤ (⟨2, 6, 2025⟩ : Date).month ∧ (⟨2, 6, 2025⟩ : Date).month ≤ 9
         then 1.5 else 1.0)
      * (if 5 ≤ weekday ⟨2, 6, 2025⟩ then 1.2 else 1.0))).toNat = 67 := by
    rw [if_pos (by decide), if_neg (by decide)]
    with_unfolding_all decide
  have hmem := seat_record_mem (formatDate ⟨2, 6, 2025⟩) ⟨2, 6, 2025⟩ 0
      (vessels.getD (0 % vessels.length) "") ⟨"Economy", 100, 45⟩ (by decide)
  rw [f4, f5] at hmem
  rw [show ("€" ++ natStr 67 : String) = "€67" from by decide,
    show (⟨"Economy", 100, 45⟩ : SeatCategory).name = "Economy" from rfl,
    show natStr (⟨"Economy", 100, 45⟩ : SeatCategory).total = "100" from by decide,
    show (natStr 95 ++ "/" ++ ("100" : String) : String) = "95/100" from by decide,
    show formatDate ⟨2, 6, 2025⟩ = "02/06/2025" from by decide,
    show vessels.getD (0 % vessels.length) "" = "Champion Jet 1" from by decide] at hmem
  rw [generate_seats_eq _ _ (by decide)]
  refine List.mem_flatMap.2 ⟨0, by decide, ?_⟩
  rw [if_pos (by decide : (0 : ℚ) < ((toOrd ⟨2, 6, 2025⟩ : Nat) : ℚ))]
  rw [show formatDate ⟨2, 6, 2025⟩ = "02/06/2025" from by decide]
  exact hmem

/-- Witness for C6: the Economy seat record of slot 0 on 02/06/2025,
generated at time 0 (so the sailing is in the future). -/
theorem claim6_seat_count_bounds_witness :
    ((⟨"02/06/2025", "Champion Jet 1", "Economy", "€67", "95/100"⟩ : SeatRecord)
        ∈ (generate_sample_data ⟨2, 6, 2025⟩ 0).2)
    ∧ ∃ c ∈ seatCategories,
        (⟨"02/06/2025", "Champion Jet 1", "Economy", "€67", "95/100"⟩
          : SeatRecord).category = c.name
        ∧ (⟨"02/06/2025", "Champion Jet 1", "Economy", "€67", "95/100"⟩
            : SeatRecord).availableSeats
            = natStr (seatAvail 0 ⟨2, 6, 2025⟩ c.total) ++ "/" ++ natStr c.total
        ∧ ⌊(c.total : ℚ) * 0.1⌋ ≤ (seatAvail 0 ⟨2, 6, 2025⟩ c.total : ℤ)
        ∧ seatAvail 0 ⟨2, 6, 2025⟩ c.total ≤ c.total :=
  ⟨economySeat_mem, claim6_seat_count_bounds ⟨2, 6, 2025⟩ 0 _ economySeat_mem⟩


/-! ## Injectivity of the date formatting -/

lemma digitsToNat_append_singleton (cs : List Char) (ch : Char) :
    digitsToNat (cs ++ [ch]) = digitsToNat cs * 10 + (ch.toNat - 48) := by
  simp [digitsToNat, List.foldl_append]

lemma digitChar_val : ∀ n, n < 10 → (Nat.digitChar n).toNat - 48 = n := by decide

lemma digitsToNat_natDigitsAux (fuel : Nat) :
    ∀ n, n < fuel → digitsToNat (natDigitsAux fuel n) = n := by
  induction fuel with
  | zero => omega
  | succ f ih =>
    intro n hn
    by_cases h10 : n < 10
    · simp only [natDigitsAux, if_pos h10]
      have := digitChar_val n h10
      simp [digitsToNat]
      omega
    · simp only [natDigitsAux, if_neg h10]
      rw [digitsToNat_append_singleton, ih (n / 10) (by omega),
        digitChar_val (n % 10) (by omega)]
      omega

lemma natStr_inj {a b : Nat} (h : natStr a = natStr b) : a = b := by
  have hdata : natDigitsAux (a + 1) a = natDigitsAux (b + 1) b := congrArg String.data h
  have ha := digitsToNat_natDigitsAux (a + 1) a (by omega)
  have hb := digitsToNat_natDigitsAux (b + 1) b (by omega)
  rw [← ha, ← hb, hdata]

lemma fmt2_data_len : ∀ n, n < 100 → (fmt2 n).data.length = 2 := by decide

lemma fmt2_inj_small : ∀ a, a < 32 → ∀ b, b < 32 → fmt2 a = fmt2 b → a = b := by decide

lemma daysInMonth_le_31 (y m : Nat) : daysInMonth y m ≤ 31 := by
  unfold daysInMonth
  split
  · split <;> omega
  · split <;> omega

lemma formatDate_injOn {d₁ d₂ : Date} (h₁ : ValidDate d₁) (h₂ : ValidDate d₂)
    (h : formatDate d₁ = formatDate d₂) : d₁ = d₂ := by
  have hday1 : d₁.day < 32 := by
    have := daysInMonth_le_31 d₁.year d₁.month; have := h₁.2.2.2.2; omega
  have hday2 : d₂.day < 32 := by
    have := daysInMonth_le_31 d₂.year d₂.month; have := h₂.2.2.2.2; omega
  have hmon1 : d₁.month < 32 := by have := h₁.2.2.1; omega
  have hmon2 : d₂.month < 32 := by have := h₂.2.2.1; omega
  have hdata := congrArg String.data h
  simp only [formatDate, String.data_append, List.append_assoc,
    show ("/" : String).data = ['/'] from rfl, List.singleton_append] at hdata
  obtain ⟨hA, hrest⟩ := List.append_inj hdata
    (by rw [fmt2_data_len _ (by omega), fmt2_data_len _ (by omega)])
  have hdayEq : d₁.day = d₂.day :=
    fmt2_inj_small _ hday1 _ hday2 (String.ext hA)
  injection hrest with hx1 hrest
  obtain ⟨hB, hrest2⟩ := List.append_inj hrest
    (by rw [fmt2_data_len _ (by omega), fmt2_data_len _ (by omega)])
  have hmonEq : d₁.month = d₂.month :=
    fmt2_inj_small _ hmon1 _ hmon2 (String.ext hB)
  injection hrest2 with hx2 hrest2
  have hyearEq : d₁.year = d₂.year := natStr_inj (String.ext hrest2)
  cases d₁; cases d₂
  simp_all

lemma vessels_getD_inj : ∀ i, i < 3 → ∀ j, j < 3 →
    vessels.getD i "" = vessels.getD j "" → i = j := by decide


/-! ## Claim C3: seat records match a unique available itinerary -/

/-- Claim C3 (confirmed): every seat record produced in a scrape matches
exactly one itinerary record produced in the same scrape on (date, vessel),
and that itinerary's availability flag is true.  (Seat records are only
emitted behind the availability check, and availability is a function of
the date alone, so the matching itinerary is available; uniqueness holds
because scraped dates are pairwise distinct and the at most 3 slots of a
day use pairwise distinct vessels.) -/
theorem claim3_seat_matches_unique_itinerary (ss es : String) (s e : Date) (now : ℚ)
    (hs : parseDate ss = some s) (he : parseDate es = some e)
    (r : SeatRecord) (hr : r ∈ scrapeSeats s e now) :
    ∃! it : Itinerary, it ∈ scrapeItineraries s e now
      ∧ it.date = r.date ∧ it.vessel = r.vessel ∧ it.available = true := by
  have hvs := parseDate_valid hs
  obtain ⟨d, hd, hgen⟩ := List.mem_flatMap.1 hr
  have hvd : ValidDate d := mem_dateRangeD_valid hvs hd
  obtain ⟨hw, hfut, i, hi, hseat⟩ := mem_generate_seats hgen
  obtain ⟨c, hc, rfl⟩ := mem_seat_data hseat
  have hi3 : i < 3 := lt_of_lt_of_le hi (numItineraries_le_three d)
  have hlen : vessels.length = 4 := rfl
  have himod : i % vessels.length = i := by rw [hlen]; omega
  refine ⟨mkItin (formatDate d) d now i, ⟨?_, rfl, rfl, ?_⟩, ?_⟩
  · exact List.mem_flatMap.2 ⟨d, hd, by
      rw [generate_itins_eq d now (by omega)]
      exact List.mem_map_of_mem _ (List.mem_range.2 hi)⟩
  · show decide (now < (toOrd d : ℚ)) = true
    exact decide_eq_true hfut
  · rintro it' ⟨hmem', hdate', hvessel', -⟩
    obtain ⟨d', hd', hgen'⟩ := List.mem_flatMap.1 hmem'
    obtain ⟨hw', j, hj, rfl⟩ := mem_generate_itins hgen'
    have hvd' : ValidDate d' := mem_dateRangeD_valid hvs hd'
    have hdd : d' = d := by
      apply formatDate_injOn hvd' hvd
      simpa [mkItin] using hdate'
    subst hdd
    have hj3 : j < 3 := lt_of_lt_of_le hj (numItineraries_le_three d')
    have hjmod : j % vessels.length = j := by rw [hlen]; omega
    have hjv : vessels.getD j "" = vessels.getD i "" := by
      have hv := hvessel'
      simp only [mkItin] at hv
      rw [hjmod] at hv
      rw [himod] at hv
      exact hv
    have hji : j = i := vessels_getD_inj j hj3 i hi3 hjv
    subst hji
    rfl

/-- Witness for C3: the Economy record of slot 0 on a one-day scrape of
02/06/2025 at generation time 0. -/
theorem claim3_seat_matches_unique_itinerary_witness :
    parseDate "02/06/2025" = some ⟨2, 6, 2025⟩
    ∧ ((⟨"02/06/2025", "Champion Jet 1", "Economy", "€67", "95/100"⟩ : SeatRecord)
        ∈ scrapeSeats ⟨2, 6, 2025⟩ ⟨2, 6, 2025⟩ 0)
    ∧ ∃! it : Itinerary, it ∈ scrapeItineraries ⟨2, 6, 2025⟩ ⟨2, 6, 2025⟩ 0
        ∧ it.date = (⟨"02/06/2025", "Champion Jet 1", "Economy", "€67", "95/100"⟩
            : SeatRecord).date
        ∧ it.vessel = (⟨"02/06/2025", "Champion Jet 1", "Economy", "€67", "95/100"⟩
            : SeatRecord).vessel
        ∧ it.available = true := by
  have hp : parseDate "02/06/2025" = some ⟨2, 6, 2025⟩ := by decide
  have hm : (⟨"02/06/2025", "Champion Jet 1", "Economy", "€67", "95/100"⟩ : SeatRecord)
      ∈ scrapeSeats ⟨2, 6, 2025⟩ ⟨2, 6, 2025⟩ 0 :=
    List.mem_flatMap.2 ⟨⟨2, 6, 2025⟩, by decide, economySeat_mem⟩
  exact ⟨hp, hm,
    claim3_seat_matches_unique_itinerary "02/06/2025" "02/06/2025" ⟨2, 6, 2025⟩
      ⟨2, 6, 2025⟩ 0 hp hp _ hm⟩


/-! ## Claims C8 and C9: aggregation and export -/

lemma generate_weekend_nil (d : Date) (now : ℚ) (h : 5 ≤ weekday d) :
    generate_sample_data d now = ([], []) := by
  unfold generate_sample_data
  rw [if_pos h]

/-- Claim C8 as stated is false: on the all-weekend range 07/06/2025
(Saturday) to 08/06/2025 (Sunday) the scrape produces `pd.DataFrame()` for
both tables — zero rows AND zero columns; in particular the documented
column "Date" is absent, where the claim promises the defined columns are
still present. -/
theorem claim8_empty_columns_counterexample :
    scrape_seajets "07/06/2025" "08/06/2025" 0 = some ⟨⟨[], []⟩, ⟨[], []⟩⟩
    ∧ ((⟨⟨[], []⟩, ⟨[], []⟩⟩ : ScrapeResult).itineraries.columns ≠ itinColumns)
    ∧ ((⟨⟨[], []⟩, ⟨[], []⟩⟩ : ScrapeResult).seats.columns ≠ seatColumns)
    ∧ "Date" ∉ (⟨⟨[], []⟩, ⟨[], []⟩⟩ : ScrapeResult).itineraries.columns := by
  decide

/-- Claim C8 corrected: when the expanded range is empty or consists only
of weekend days, the scrape returns two completely empty DataFrames: zero
rows and zero columns (`pd.DataFrame()` carries no column labels). -/
theorem claim8_empty_scrape_amended (ss es : String) (s e : Date) (now : ℚ)
    (hs : parseDate ss = some s) (he : parseDate es = some e)
    (hweek : ∀ d ∈ dateRangeD s e, 5 ≤ weekday d) :
    scrape_seajets ss es now = some ⟨⟨[], []⟩, ⟨[], []⟩⟩ := by
  have hitin : scrapeItineraries s e now = [] := by
    rw [List.eq_nil_iff_forall_not_mem]
    intro it hmem
    obtain ⟨d, hd, hgen⟩ := List.mem_flatMap.1 hmem
    rw [generate_weekend_nil d now (hweek d hd)] at hgen
    simp at hgen
  have hseats : scrapeSeats s e now = [] := by
    rw [List.eq_nil_iff_forall_not_mem]
    intro r hmem
    obtain ⟨d, hd, hgen⟩ := List.mem_flatMap.1 hmem
    rw [generate_weekend_nil d now (hweek d hd)] at hgen
    simp at hgen
  simp only [scrape_seajets, hs, he, hitin, hseats, List.map_nil]
  rfl

/-- Witness for the corrected C8 on the weekend range 07/06–08/06/2025. -/
theorem claim8_empty_scrape_amended_witness :
    parseDate "07/06/2025" = some ⟨7, 6, 2025⟩
    ∧ parseDate "08/06/2025" = some ⟨8, 6, 2025⟩
    ∧ (∀ d ∈ dateRangeD ⟨7, 6, 2025⟩ ⟨8, 6, 2025⟩, 5 ≤ weekday d)
    ∧ scrape_seajets "07/06/2025" "08/06/2025" 0 = some ⟨⟨[], []⟩, ⟨[], []⟩⟩ :=
  ⟨by decide, by decide, by decide,
    claim8_empty_scrape_amended "07/06/2025" "08/06/2025" ⟨7, 6, 2025⟩ ⟨8, 6, 2025⟩ 0
      (by decide) (by decide) (by decide)⟩

/-- Claim C9 (confirmed): for a fixed pair of input tables, two runs of the
export — at different generation times — produce identical CSV text and an
identical workbook; the timestamp reaches only the external filename stem.
(The CSV serializer and the workbook builder are functions of the tables
alone; `datetime.now()` flows into `filename_prefix` and nowhere else.) -/
theorem claim9_export_reproducible (itins seats : Table) (t₁ t₂ : String) :
    (export_csv itins seats t₁).itinerariesCsv = (export_csv itins seats t₂).itinerariesCsv
    ∧ (export_csv itins seats t₁).seatsCsv = (export_csv itins seats t₂).seatsCsv
    ∧ (export_csv itins seats t₁).excelData = (export_csv itins seats t₂).excelData
    ∧ (export_csv itins seats t₁).itinerariesCsv = to_csv itins
    ∧ (export_csv itins seats t₁).seatsCsv = to_csv seats
    ∧ (export_csv itins seats t₁).excelData = to_excel itins seats
    ∧ (export_csv itins seats t₁).filenameStamp = "seajets_scrape_" ++ t₁ :=
  ⟨rfl, rfl, rfl, rfl, rfl, rfl, rfl⟩

end Seajets
